import Mathlib

set_option autoImplicit false

/-!
Shallow embedding of the surrealdb.rs client core: the embedded dispatcher
(`src/storage/mod.rs`), the statement builders and parameter splitting
(`src/lib.rs`), the query builder (`src/method/query/mod.rs`), the query
response accessors (`src/method/query/response.rs`) and the native route
loop (`src/storage/native.rs`).  The query-language executor
(`surrealdb::Datastore`) is an external collaborator and is modelled as a
function parameter.
-/

namespace Surreal

/-- Embeds `surrealdb::sql::Value`, restricted to the constructors the client
code pattern-matches on.  `thing` is a record id (`what.is_thing()`), `strand`
a string value, `object` a map produced by serializing user data. -/
inductive Value where
  | none
  | null
  | bool (b : Bool)
  | int (n : Int)
  | strand (s : String)
  | thing (tb : String) (id : String)
  | array (xs : List Value)
  | object (fields : List (String × Value))

/-- Embeds the client's `ErrorKind` variants used by the code under study. -/
inductive ErrorKind where
  | query
  | invalidBindings
  | connectionUninitialized
deriving DecidableEq

/-- Context attached to an error: either a message / engine error string
(`with_message`, `with_context(error)`) or a value (`with_context(&bindings)`). -/
inductive ErrContext where
  | msg (s : String)
  | val (v : Value)

/-- Embeds the client's `Error` type: an `ErrorKind` with its context. -/
structure Err where
  kind : ErrorKind
  context : ErrContext

/-- Embeds `surrealdb::Response`: the outcome of one engine statement, a
`Result<Value, surrealdb::Error>` with engine errors modelled as strings. -/
structure Response where
  result : Except String Value

/-- Embeds `QueryResult(Result<Vec<Value>>)` from `method/query/response.rs`. -/
abbrev QueryResult := Except Err (List Value)

/-- Embeds `QueryResponse(Vec<QueryResult>)` from `method/query/response.rs`. -/
abbrev QueryResponse := List QueryResult

/-- One iteration of the loop in `process` (storage/mod.rs lines 269-282):
an `Ok` array is unwrapped to its elements, `Ok` none/null becomes the empty
list, any other `Ok` value becomes a singleton, and an engine error is wrapped
as `ErrorKind::Query.with_context(error)`. -/
def processOne (r : Response) : QueryResult :=
  match r.result with
  | .ok (Value.array xs) => .ok xs
  | .ok Value.none => .ok []
  | .ok Value.null => .ok []
  | .ok v => .ok [v]
  | .error e => .error ⟨ErrorKind.query, ErrContext.msg e⟩

/-- Embeds `process` (storage/mod.rs lines 269-282).  The Rust function
returns `Result<QueryResponse>` but its only exit is `Ok`, so the model is
total. -/
def process (responses : List Response) : QueryResponse :=
  responses.map processOne

/-- Embeds `take` (storage/mod.rs lines 284-308).  `pop()` takes the last
statement's result; inside the `one == true` arm `vec.pop()` takes the last
row, a one-element nested array is unwrapped one level, a nested array of any
other length and none/null/no row all fall through to `Ok(Value::None)`, and
any other value is returned as is.  With `one == false` the untouched row
vector is returned wrapped in an array. -/
def take (one : Bool) (responses : List Response) : Except Err Value :=
  match (process responses).getLast? with
  | some result =>
    match result with
    | .error e => .error e
    | .ok vec =>
      match one with
      | true =>
        match vec.getLast? with
        | some (Value.array inner) =>
          match inner with
          | [v] => .ok v
          | _ => .ok Value.none
        | some Value.none => .ok Value.none
        | some Value.null => .ok Value.none
        | Option.none => .ok Value.none
        | some v => .ok v
      | false => .ok (Value.array vec)
  | Option.none =>
    match one with
    | true => .ok Value.none
    | false => .ok (Value.array [])

/-- Embeds `surrealdb::sql::Values`. -/
structure Values where
  values : List Value

/-- Embeds `Value::is_thing`. -/
def isThing : Value → Bool
  | Value.thing _ _ => true
  | _ => false

/-- Embeds `split_params` (lib.rs lines 450-462): one parameter is the target
with no data, two parameters are target and data, any other arity is
`unreachable!()` (modelled as `Option.none`).  `one` records whether the
target names a single record (`what.is_thing()`); an array target is splatted
into `Values`, any other target becomes a one-element `Values`. -/
def split_params (params : List Value) : Option (Bool × Values × Value) :=
  match params with
  | [what] => some (splitOne what Value.none)
  | [what, data] => some (splitOne what data)
  | _ => Option.none
where
  splitOne (what data : Value) : Bool × Values × Value :=
    let one := isThing what
    let whatValues := match what with
      | Value.array vs => Values.mk vs
      | v => Values.mk [v]
    (one, whatValues, data)

/-- Embeds `surrealdb::sql::Output` (`After`, `Diff`, `None`). -/
inductive Output where
  | after
  | diff
  | none
deriving DecidableEq

/-- Embeds `surrealdb::sql::Data` in the variants built by the client. -/
inductive Data where
  | contentExpression (v : Value)
  | mergeExpression (v : Value)
  | patchExpression (v : Value)

/-- Embeds `surrealdb::sql::Field` in the variant built by the client. -/
inductive Field where
  | all

/-- Embeds `surrealdb::sql::Fields`. -/
structure Fields where
  fields : List Field

/-- Embeds `surrealdb::sql::statements::CreateStatement` (the fields the
client populates). -/
structure CreateStatement where
  what : Values
  data : Option Data
  output : Option Output

/-- Embeds `surrealdb::sql::statements::UpdateStatement` (the fields the
client populates). -/
structure UpdateStatement where
  what : Values
  data : Option Data
  output : Option Output

/-- Embeds `surrealdb::sql::statements::SelectStatement` (the fields the
client populates). -/
structure SelectStatement where
  expr : Fields
  what : Values

/-- Embeds `surrealdb::sql::statements::DeleteStatement` (the fields the
client populates). -/
structure DeleteStatement where
  what : Values
  output : Option Output

/-- Embeds `surrealdb::sql::Statement` in the variants the client builds;
`raw` stands for a statement produced by the external SQL parser. -/
inductive Statement where
  | create (s : CreateStatement)
  | update (s : UpdateStatement)
  | select (s : SelectStatement)
  | delete (s : DeleteStatement)
  | raw (text : String)

/-- Embeds `surrealdb::sql::Query(Statements(..))`. -/
structure SqlQuery where
  statements : List Statement

/-- Embeds `create_statement` (lib.rs lines 465-477): `one` is discarded,
`Value::None` data means no data clause, otherwise a `ContentExpression`;
output is `Output::After`.  `Option.none` models the `unreachable!()` inside
`split_params` on a bad arity. -/
def create_statement (params : List Value) : Option CreateStatement :=
  (split_params params).map fun (_, what, data) =>
    { what := what
      data := match data with
        | Value.none => Option.none
        | v => some (Data.contentExpression v)
      output := some Output.after }

/-- Embeds `update_statement` (lib.rs lines 480-495): keeps `one`, data is a
`ContentExpression`, output `After`. -/
def update_statement (params : List Value) : Option (Bool × UpdateStatement) :=
  (split_params params).map fun (one, what, data) =>
    (one,
      { what := what
        data := match data with
          | Value.none => Option.none
          | v => some (Data.contentExpression v)
        output := some Output.after })

/-- Embeds `patch_statement` (lib.rs lines 498-513): data is a
`PatchExpression`, output `Diff`. -/
def patch_statement (params : List Value) : Option (Bool × UpdateStatement) :=
  (split_params params).map fun (one, what, data) =>
    (one,
      { what := what
        data := match data with
          | Value.none => Option.none
          | v => some (Data.patchExpression v)
        output := some Output.diff })

/-- Embeds `merge_statement` (lib.rs lines 516-531): data is a
`MergeExpression`, output `After`. -/
def merge_statement (params : List Value) : Option (Bool × UpdateStatement) :=
  (split_params params).map fun (one, what, data) =>
    (one,
      { what := what
        data := match data with
          | Value.none => Option.none
          | v => some (Data.mergeExpression v)
        output := some Output.after })

/-- Embeds `select_statement` (lib.rs lines 534-544): wildcard projection of
the target, keeps `one`. -/
def select_statement (params : List Value) : Option (Bool × SelectStatement) :=
  (split_params params).map fun (one, what, _) =>
    (one, { expr := Fields.mk [Field.all], what := what })

/-- Embeds `delete_statement` (lib.rs lines 547-554): `one` is DISCARDED,
output is `Output::None`. -/
def delete_statement (params : List Value) : Option DeleteStatement :=
  (split_params params).map fun (_, what, _) =>
    { what := what, output := some Output.none }

/-- Embeds the namespace/database part of `surrealdb::Session`, the only
fields the dispatcher touches (`session.ns`, `session.db`). -/
structure Session where
  ns : Option String
  db : Option String

/-- Embeds `BTreeMap<String, Value>` as an association list with unique keys
maintained by `varsInsert`. -/
abbrev Vars := List (String × Value)

/-- Embeds `BTreeMap::insert`: replaces the value of an existing key,
otherwise appends the new entry. -/
def varsInsert (m : Vars) (key : String) (v : Value) : Vars :=
  match m with
  | [] => [(key, v)]
  | (k, w) :: rest =>
    if k = key then (key, v) :: rest else (k, w) :: varsInsert rest key v

/-- Embeds `BTreeMap::get`: the value of the first entry with this key. -/
def varsLookup (m : Vars) (key : String) : Option Value :=
  match m with
  | [] => Option.none
  | (k, w) :: rest => if k = key then some w else varsLookup rest key

/-- Embeds `BTreeMap::remove`: drops the first entry with this key. -/
def varsRemove (m : Vars) (key : String) : Vars :=
  match m with
  | [] => []
  | (k, w) :: rest => if k = key then rest else (k, w) :: varsRemove rest key

/-- Embeds `BTreeMap::append`: every entry of `src` is moved into `dst`, and
on a key collision the value from `src` overwrites the one in `dst`. -/
def varsAppend (dst src : Vars) : Vars :=
  src.foldl (fun acc kv => varsInsert acc kv.1 kv.2) dst

/-- Embeds the `Method` enumeration (`method/mod.rs`); `export` and `import`
are Lean keywords, hence the trailing underscores. -/
inductive Method where
  | use
  | signin
  | signup
  | authenticate
  | invalidate
  | create
  | select
  | update
  | merge
  | patch
  | delete
  | query
  | live
  | kill
  | set
  | unset
  | export_
  | import_
  | health
  | version

/-- Embeds `Param` (`param/mod.rs`, missing from the sources; its fields
`other`, `query` and `file` are fixed by their uses in `storage/mod.rs`): an
ordered list of positional values, an optional pre-built query with its
bindings, and an optional file path. -/
structure Param where
  query : Option (SqlQuery × Vars)
  other : List Value
  file : Option String

/-- Builds a `Param` carrying only positional values (`Param::new`). -/
def Param.new (other : List Value) : Param :=
  { query := Option.none, other := other, file := Option.none }

/-- Embeds `DbResponse` (`param/mod.rs`): a full query response for the
`query` method, a single value for every other method. -/
inductive DbResponse where
  | query (r : QueryResponse)
  | other (v : Value)

/-- Outcome of one dispatcher invocation: `ok` for `Ok(..)`, `fails` for
`Err(..)`, `panics` for `unreachable!()` / `expect` panics, and `io` for the
export/import arms whose behaviour is bound to the file system and modelled
opaquely. -/
inductive Outcome (α : Type) where
  | ok (a : α)
  | fails (e : Err)
  | panics
  | io

/-- Embeds the external `surrealdb::Datastore` handle at its boundary:
`process` executes a pre-parsed query, `execute` parses and executes a query
string; both receive the session, the variable bindings and the strict flag,
and return one `Response` per statement or a datastore-level error. -/
structure Datastore where
  process : SqlQuery → Session → Vars → Bool → Except Err (List Response)
  execute : String → Session → Vars → Bool → Except Err (List Response)

/-- Models `surrealdb::VERSION`, the engine's own version string; its
concrete value lives in the external engine crate. -/
def VERSION : String := "1.0.0-beta.8"

/-- Embeds `router` (storage/mod.rs lines 310-469), the embedded dispatcher.
The in-place mutation of `session` and `vars` is made explicit by returning
them; the `Export`/`Import` arms stream files and are mapped to the opaque
`io` outcome (after the `param.file.expect(..)` panic check for export). -/
def router (kvs : Datastore) (method : Method) (param : Param)
    (session : Session) (vars : Vars) (strict : Bool) :
    Outcome (DbResponse × Session × Vars) :=
  let params := param.other
  match method with
  | Method.use =>
    match params with
    | [Value.strand ns, Value.strand db] =>
      .ok (DbResponse.other Value.none, { ns := some ns, db := some db }, vars)
    | _ => .panics
  | Method.signin => .panics
  | Method.signup => .panics
  | Method.authenticate => .panics
  | Method.invalidate => .panics
  | Method.create =>
    match create_statement params with
    | Option.none => .panics
    | some statement =>
      match kvs.process ⟨[Statement.create statement]⟩ session vars strict with
      | .error e => .fails e
      | .ok responses =>
        match take true responses with
        | .error e => .fails e
        | .ok value => .ok (DbResponse.other value, session, vars)
  | Method.update =>
    match update_statement params with
    | Option.none => .panics
    | some (one, statement) =>
      match kvs.process ⟨[Statement.update statement]⟩ session vars strict with
      | .error e => .fails e
      | .ok responses =>
        match take one responses with
        | .error e => .fails e
        | .ok value => .ok (DbResponse.other value, session, vars)
  | Method.patch =>
    match patch_statement params with
    | Option.none => .panics
    | some (one, statement) =>
      match kvs.process ⟨[Statement.update statement]⟩ session vars strict with
      | .error e => .fails e
      | .ok responses =>
        match take one responses with
        | .error e => .fails e
        | .ok value => .ok (DbResponse.other value, session, vars)
  | Method.merge =>
    match merge_statement params with
    | Option.none => .panics
    | some (one, statement) =>
      match kvs.process ⟨[Statement.update statement]⟩ session vars strict with
      | .error e => .fails e
      | .ok responses =>
        match take one responses with
        | .error e => .fails e
        | .ok value => .ok (DbResponse.other value, session, vars)
  | Method.select =>
    match select_statement params with
    | Option.none => .panics
    | some (one, statement) =>
      match kvs.process ⟨[Statement.select statement]⟩ session vars strict with
      | .error e => .fails e
      | .ok responses =>
        match take one responses with
        | .error e => .fails e
        | .ok value => .ok (DbResponse.other value, session, vars)
  | Method.delete =>
    match delete_statement params with
    | Option.none => .panics
    | some statement =>
      match kvs.process ⟨[Statement.delete statement]⟩ session vars strict with
      | .error e => .fails e
      | .ok responses =>
        match take true responses with
        | .error e => .fails e
        | .ok value => .ok (DbResponse.other value, session, vars)
  | Method.query =>
    match param.query with
    | Option.none => .panics
    | some (query, bindings) =>
      match kvs.process query session (varsAppend vars bindings) strict with
      | .error e => .fails e
      | .ok responses => .ok (DbResponse.query (process responses), session, vars)
  | Method.export_ =>
    match param.file with
    | Option.none => .panics
    | some _ => .io
  | Method.import_ =>
    match param.file with
    | Option.none => .panics
    | some _ => .io
  | Method.health => .ok (DbResponse.other Value.none, session, vars)
  | Method.version => .ok (DbResponse.other (Value.strand VERSION), session, vars)
  | Method.set =>
    match params with
    | Value.strand key :: value :: _ =>
      .ok (DbResponse.other Value.none, session, varsInsert vars key value)
    | _ => .panics
  | Method.unset =>
    match params with
    | Value.strand key :: _ =>
      .ok (DbResponse.other Value.none, session, varsRemove vars key)
    | _ :: _ => .ok (DbResponse.other Value.none, session, vars)
    | [] => .panics
  | Method.live =>
    match params with
    | [table] =>
      let liveVars : Vars := [("table", table)]
      match kvs.execute "LIVE SELECT * FROM type::table($table)" session liveVars strict with
      | .error e => .fails e
      | .ok responses =>
        match take true responses with
        | .error e => .fails e
        | .ok value => .ok (DbResponse.other value, session, vars)
    | _ => .panics
  | Method.kill =>
    match params with
    | [id] =>
      let killVars : Vars := [("id", id)]
      match kvs.execute "KILL type::string($id)" session killVars strict with
      | .error e => .fails e
      | .ok responses =>
        match take true responses with
        | .error e => .fails e
        | .ok value => .ok (DbResponse.other value, session, vars)
    | _ => .panics

/-- Embeds the statement-collection loop of `Query::into_future`
(method/query/mod.rs lines 45-59): the chained fragments' statements are
concatenated in call order, and the first fragment that failed to parse
aborts the whole batch with its error. -/
def collectStatements : List (Except Err (List Statement)) → Except Err (List Statement)
  | [] => .ok []
  | q :: rest =>
    match q with
    | .error e => .error e
    | .ok stmts =>
      match collectStatements rest with
      | .error e => .error e
      | .ok tail => .ok (stmts ++ tail)

/-- Embeds `Query::bind` (method/query/mod.rs lines 114-132), applied to the
pending bindings state and the serialized binding value.  A literal
two-element array whose first element is a strand is rewritten into a
one-entry object; an object is then appended into the current map (its
entries winning on key collision); anything else replaces the state with an
`InvalidBindings` error carrying the offending value. -/
def bind (current : Except Err Vars) (input : Value) : Except Err Vars :=
  match current with
  | .error e => .error e
  | .ok cur =>
    let bindings := match input with
      | Value.array [Value.strand key, v] => Value.object [(key, v)]
      | v => v
    match bindings with
    | Value.object map => .ok (varsAppend cur map)
    | other => .error ⟨ErrorKind.invalidBindings, ErrContext.val other⟩

/-- Embeds `Vec::get` on a half-open index range `lo..hi`: the slice exists
iff `lo ≤ hi` and `hi ≤ len`. -/
def listSlice? (xs : List Value) (lo hi : Nat) : Option (List Value) :=
  if lo ≤ hi ∧ hi ≤ xs.length then some ((xs.drop lo).take (hi - lo)) else Option.none

/-- Embeds `QueryResult::get` (method/query/response.rs lines 199-213)
instantiated at a single `usize` index with an `Option`-shaped target:
an inner error is cloned and surfaced, an in-range item is deserialized
(`some`), an out-of-range index yields `T::default()` (`Option.none`). -/
def queryResultGetIdx (r : QueryResult) (i : Nat) : Except Err (Option Value) :=
  match r with
  | .error e => .error e
  | .ok values =>
    match values.get? i with
    | some v => .ok (some v)
    | Option.none => .ok Option.none

/-- Embeds `QueryResult::get` instantiated at a `lo..hi` range with a
`Vec`-shaped target: an inner error is surfaced, a fully in-range slice is
deserialized, an out-of-range range yields `T::default()` (the empty list). -/
def queryResultGetRange (r : QueryResult) (lo hi : Nat) : Except Err (List Value) :=
  match r with
  | .error e => .error e
  | .ok values =>
    match listSlice? values lo hi with
    | some slice => .ok slice
    | Option.none => .ok []

/-- Embeds `QueryResponse::query_result` (method/query/response.rs line 36). -/
def queryResult? (resp : QueryResponse) (n : Nat) : Option QueryResult :=
  resp.get? n

/-- Embeds `QueryResponse::get` (method/query/response.rs lines 81-91) at a
single item index: a missing statement index yields `T::default()`
(`Option.none`), otherwise the statement's own `get` is used. -/
def queryResponseGetIdx (resp : QueryResponse) (queryIndex i : Nat) :
    Except Err (Option Value) :=
  match queryResult? resp queryIndex with
  | Option.none => .ok Option.none
  | some r => queryResultGetIdx r i

/-- Embeds `QueryResponse::get` at an item range: a missing statement index
yields `T::default()` (the empty list), otherwise the statement's own `get`
is used. -/
def queryResponseGetRange (resp : QueryResponse) (queryIndex lo hi : Nat) :
    Except Err (List Value) :=
  match queryResult? resp queryIndex with
  | Option.none => .ok []
  | some r => queryResultGetRange r lo hi

/-- Embeds the dispatch loop of `storage/native.rs` (lines 142-154) on the
sequence of queue elements it dequeues: `while let Some(Some(route))` keeps
servicing routes until the queue is exhausted or the `None` shutdown sentinel
is dequeued, and returns the routes serviced, in order.  A route that does
not appear in the returned list is never serviced, so its one-shot reply
channel is dropped. -/
def dispatchLoop {ρ : Type} : List (Option ρ) → List ρ
  | [] => []
  | Option.none :: _ => []
  | some r :: rest => r :: dispatchLoop rest

/-- Embeds `Router::drop` (lib.rs lines 364-371) on the queue contents:
dropping the last client handle enqueues the `None` shutdown sentinel. -/
def routerDrop {ρ : Type} (queue : List (Option ρ)) : List (Option ρ) :=
  queue ++ [Option.none]

/-- Embeds `connection_uninitialised` (lib.rs lines 445-447). -/
def connection_uninitialised : Err :=
  ⟨ErrorKind.connectionUninitialized, ErrContext.msg "connection uninitialized"⟩

/-- Embeds `ExtractRouter::extract` (lib.rs lines 435-443): the `OnceCell`
holding the router is modelled as an `Option`; an unset cell yields the
connection-uninitialized error immediately. -/
def extract {ρ : Type} (cell : Option ρ) : Except Err ρ :=
  match cell with
  | Option.none => .error connection_uninitialised
  | some r => .ok r

/-- Embeds the caller side of one method call as composed by every
`into_future` (`conn.execute(self.router?, ..)` after `router.extract()`):
the router cell is extracted first, and only on success is the route
enqueued (`Connection::send`, storage/native.rs lines 70-84).  Returns the
call's immediate outcome and the queue after the call. -/
def sendOnClient {ρ : Type} (cell : Option Unit) (queue : List (Option ρ)) (route : ρ) :
    Except Err Unit × List (Option ρ) :=
  match extract cell with
  | .error e => (.error e, queue)
  | .ok _ => (.ok (), queue ++ [some route])

/-- Identity of one `surrealdb::Datastore` instance, named by the path it was
opened with (`Datastore::new(path)`). -/
structure DatastoreId where
  path : String

/-- Embeds the scheme rewrite of the embedded connect task
(storage/native.rs lines 120-125): `mem://` becomes the `"memory"` path, any
other address is passed through verbatim. -/
def schemePath (scheme url : String) : String :=
  if scheme = "mem" then "memory" else url

/-- Embeds the datastore initialization of the embedded connect task
(storage/native.rs lines 127-136) over the process-wide `static DB:
OnceCell<Datastore>` modelled as an `Option`: an already-initialized cell is
reused as is, otherwise `Datastore::new(path)` (the external constructor,
passed as `newDs`) is attempted and a success initializes the cell.  Returns
the cell afterwards and the datastore handle the connection will use (or the
connect error). -/
def initDatastore (cell : Option DatastoreId) (path : String)
    (newDs : String → Except Err DatastoreId) :
    Option DatastoreId × Except Err DatastoreId :=
  match cell with
  | some kvs => (some kvs, .ok kvs)
  | Option.none =>
    match newDs path with
    | .ok kvs => (some kvs, .ok kvs)
    | .error e => (Option.none, .error e)

/-- A datastore whose `process` and `execute` both answer every call with the
given responses; used to quantify over the engine's behaviour. -/
def constDatastore (responses : List Response) : Datastore :=
  { process := fun _ _ _ _ => .ok responses
    execute := fun _ _ _ _ => .ok responses }

example : take true [⟨.ok (Value.array [])⟩] = .ok Value.none := rfl
example : take true [⟨.ok (Value.array [Value.array [Value.strand "x"]])⟩]
    = .ok (Value.strand "x") := rfl
example : take true [⟨.ok (Value.array [Value.strand "a", Value.strand "b"])⟩]
    = .ok (Value.strand "b") := rfl
example : take true [⟨.ok (Value.array [Value.array [Value.int 1, Value.int 2]])⟩]
    = .ok Value.none := rfl
example : take true [] = .ok Value.none := rfl
example : take false [⟨.ok (Value.array [Value.strand "a", Value.strand "b"])⟩]
    = .ok (Value.array [Value.strand "a", Value.strand "b"]) := rfl
example : take false [] = .ok (Value.array []) := rfl
example : take true [⟨.error "boom"⟩]
    = .error ⟨ErrorKind.query, ErrContext.msg "boom"⟩ := rfl

example :
    router (constDatastore [⟨.ok (Value.array [Value.strand "a", Value.strand "b"])⟩])
      Method.delete (Param.new [Value.strand "person"]) ⟨Option.none, Option.none⟩ [] false
    = .ok (DbResponse.other (Value.strand "b"), ⟨Option.none, Option.none⟩, []) := rfl

example :
    router (constDatastore [⟨.ok (Value.array [Value.strand "a", Value.strand "b"])⟩])
      Method.select (Param.new [Value.strand "person"]) ⟨Option.none, Option.none⟩ [] false
    = .ok (DbResponse.other (Value.array [Value.strand "a", Value.strand "b"]),
        ⟨Option.none, Option.none⟩, []) := rfl

example :
    router (constDatastore []) Method.use
      (Param.new [Value.none, Value.strand "test-db"]) ⟨Option.none, Option.none⟩ [] false
    = .panics := rfl

example :
    bind (.ok []) (Value.array [Value.strand "name", Value.strand "John"])
    = .ok [("name", Value.strand "John")] := rfl
example :
    bind (.ok []) (Value.array [Value.bool true, Value.strand "John"])
    = .error ⟨ErrorKind.invalidBindings,
        ErrContext.val (Value.array [Value.bool true, Value.strand "John"])⟩ := rfl

lemma varsLookup_insert (m : Vars) (key : String) (v : Value) (k : String) :
    varsLookup (varsInsert m key v) k
      = if key = k then some v else varsLookup m k := by
  induction m with
  | nil => simp [varsInsert, varsLookup]
  | cons hd tl ih =>
    obtain ⟨k0, w⟩ := hd
    by_cases h1 : k0 = key
    · subst h1
      by_cases h2 : k0 = k <;> simp [varsInsert, varsLookup, h2]
    · by_cases h2 : k0 = k
      · subst h2
        have h3 : ¬ key = k0 := fun h => h1 h.symm
        simp [varsInsert, varsLookup, h1, h3]
      · simp [varsInsert, varsLookup, h1, h2, ih]

lemma varsLookup_mem {m : Vars} {k : String} {v : Value}
    (h : varsLookup m k = some v) : k ∈ m.map Prod.fst := by
  induction m with
  | nil => simp [varsLookup] at h
  | cons hd tl ih =>
    obtain ⟨k0, w⟩ := hd
    by_cases h1 : k0 = k
    · simp [h1]
    · simp only [varsLookup, if_neg h1] at h
      simpa using Or.inr (ih h)

lemma varsLookup_append (dst src : Vars) (k : String)
    (h : (src.map Prod.fst).Nodup) :
    varsLookup (varsAppend dst src) k
      = match varsLookup src k with
        | some v => some v
        | Option.none => varsLookup dst k := by
  induction src generalizing dst with
  | nil => simp [varsAppend, varsLookup]
  | cons hd tl ih =>
    obtain ⟨k0, v0⟩ := hd
    simp only [List.map_cons, List.nodup_cons] at h
    obtain ⟨hk0, htl⟩ := h
    have step : varsAppend dst ((k0, v0) :: tl) = varsAppend (varsInsert dst k0 v0) tl := rfl
    rw [step, ih _ htl]
    by_cases hk : k0 = k
    · subst hk
      cases htlk : varsLookup tl k0 with
      | none => simp [varsLookup, varsLookup_insert]
      | some v => exact absurd (varsLookup_mem htlk) hk0
    · cases htlk : varsLookup tl k with
      | none => simp [varsLookup, varsLookup_insert, hk, htlk]
      | some v => simp [varsLookup, hk, htlk]

lemma take_true_last_pair (init : List Value) (v : Value) :
    take true [⟨.ok (Value.array (init ++ [Value.array [v]]))⟩] = .ok v := by
  simp [take, process, processOne, List.getLast?_concat]

lemma take_true_last_object (init : List Value) (o : List (String × Value)) :
    take true [⟨.ok (Value.array (init ++ [Value.object o]))⟩]
      = .ok (Value.object o) := by
  simp [take, process, processOne, List.getLast?_concat]

lemma take_true_no_rows :
    take true [⟨.ok (Value.array [])⟩] = .ok Value.none := rfl

lemma take_true_statement_error (e : String) :
    take true [⟨.error e⟩] = .error ⟨ErrorKind.query, ErrContext.msg e⟩ := rfl

lemma take_false_rows (rows : List Value) :
    take false [⟨.ok (Value.array rows)⟩] = .ok (Value.array rows) := rfl

/-- C7: dropping the last client handle enqueues the `None` sentinel on the
route queue; the background loop services exactly the routes queued before
the sentinel, in order, and any element queued after the sentinel (whatever
it is) is never serviced, so its caller's one-shot reply channel is dropped
unanswered. -/
theorem c7_sentinel_shutdown {ρ : Type} (before : List ρ) (after : List (Option ρ)) :
    routerDrop (before.map some) = before.map some ++ [Option.none]
      ∧ dispatchLoop (routerDrop (before.map some) ++ after) = before := by
  refine ⟨rfl, ?_⟩
  induction before with
  | nil => rfl
  | cons b bs ih => simpa [routerDrop, dispatchLoop] using ih

/-- C8: a call issued on a client whose connection was never established (the
router cell is still unset) returns the connection-uninitialized error
immediately and leaves the route queue untouched — nothing is enqueued, so
nothing can block on it. -/
theorem c8_uninitialized_call {ρ : Type} (queue : List (Option ρ)) (route : ρ) :
    sendOnClient Option.none queue route = (.error connection_uninitialised, queue)
      ∧ connection_uninitialised.kind = ErrorKind.connectionUninitialized :=
  ⟨rfl, rfl⟩

/-- C10: the embedded datastore is a process-wide static initialized by the
first successful connect; any later connect reuses that datastore whatever
address it carries, so connecting to `mem://` and then to a different
address still operates on the `"memory"` datastore. -/
theorem c10_static_datastore :
    (∀ (d : DatastoreId) (path : String) (newDs : String → Except Err DatastoreId),
        initDatastore (some d) path newDs = (some d, .ok d))
  ∧ (∀ (path : String) (newDs : String → Except Err DatastoreId) (d : DatastoreId),
        newDs path = .ok d → initDatastore Option.none path newDs = (some d, .ok d))
  ∧ ((initDatastore
        (initDatastore Option.none (schemePath "mem" "mem://")
          (fun p => .ok (DatastoreId.mk p))).1
        "rocksdb://other.db" (fun p => .ok (DatastoreId.mk p))).2
      = .ok (DatastoreId.mk "memory")) := by
  refine ⟨fun d path newDs => rfl, fun path newDs d h => ?_, rfl⟩
  simp [initDatastore, h]

/-- Witness for C10 at a concrete first connect. -/
theorem c10_witness :
    initDatastore Option.none "memory" (fun p => .ok (DatastoreId.mk p))
      = (some (DatastoreId.mk "memory"), .ok (DatastoreId.mk "memory")) :=
  c10_static_datastore.2.1 "memory" (fun p => .ok (DatastoreId.mk p))
    (DatastoreId.mk "memory") rfl

/-- C9 counterexample: the claim says every Use invocation on the embedded
dispatcher succeeds, but the dispatcher's Use arm accepts only two strand
parameters; the invocation built by `UseDb::into_future` (use_db.rs lines
24-31) carries `Value::None` as its first positional parameter and hits the
`unreachable!()` branch, a panic rather than a success. -/
theorem c9_counterexample :
    router (constDatastore []) Method.use
        (Param.new [Value.none, Value.strand "test-db"])
        ⟨Option.none, Option.none⟩ [] false
      = Outcome.panics
    ∧ ∀ (r : DbResponse × Session × Vars),
        (Outcome.panics : Outcome (DbResponse × Session × Vars)) ≠ Outcome.ok r := by
  refine ⟨rfl, fun r h => ?_⟩
  exact Outcome.noConfusion h

/-- C9 (amended): every Use invocation whose two positional parameters are
both strings sets the session's namespace and database from them, always
succeeds with an empty/void result, and leaves the bound variables alone;
a Use invocation whose first parameter is not a string panics the
dispatcher instead. -/
theorem c9_use_sets_session (ns db : String) (kvs : Datastore) (s : Session)
    (vars : Vars) (strict : Bool) :
    router kvs Method.use (Param.new [Value.strand ns, Value.strand db]) s vars strict
      = .ok (DbResponse.other Value.none, ⟨some ns, some db⟩, vars) := rfl

/-- C1 counterexample: the claim says Delete with a table target returns the
statement's full result array unreduced, but the Delete arm always collapses
with `take(true, ..)` (storage/mod.rs line 374): on a table target and a
two-row engine response it returns the last row alone, never the array. -/
theorem c1_counterexample :
    router (constDatastore [⟨.ok (Value.array [Value.strand "a", Value.strand "b"])⟩])
        Method.delete (Param.new [Value.strand "person"])
        ⟨Option.none, Option.none⟩ [] false
      = .ok (DbResponse.other (Value.strand "b"), ⟨Option.none, Option.none⟩, [])
    ∧ ∀ (xs : List Value), DbResponse.other (Value.strand "b") ≠ DbResponse.other (Value.array xs) := by
  refine ⟨rfl, fun xs h => ?_⟩
  simp at h

/-- C1 (amended): for a table target or an array of targets, Select and
Update return the statement's full result array unreduced, even when empty;
Delete, however, always applies the single-record collapsing rule
(`take(true, ..)`) whatever its target is. -/
theorem c1_table_targets (tb : String) (targets rows : List Value) (data : Value)
    (s : Session) (vars : Vars) (strict : Bool) :
    (router (constDatastore [⟨.ok (Value.array rows)⟩]) Method.select
        (Param.new [Value.strand tb]) s vars strict
      = .ok (DbResponse.other (Value.array rows), s, vars))
  ∧ (router (constDatastore [⟨.ok (Value.array rows)⟩]) Method.select
        (Param.new [Value.array targets]) s vars strict
      = .ok (DbResponse.other (Value.array rows), s, vars))
  ∧ (router (constDatastore [⟨.ok (Value.array rows)⟩]) Method.update
        (Param.new [Value.strand tb, data]) s vars strict
      = .ok (DbResponse.other (Value.array rows), s, vars))
  ∧ (router (constDatastore [⟨.ok (Value.array rows)⟩]) Method.merge
        (Param.new [Value.strand tb, data]) s vars strict
      = .ok (DbResponse.other (Value.array rows), s, vars))
  ∧ (router (constDatastore [⟨.ok (Value.array rows)⟩]) Method.delete
        (Param.new [Value.strand tb]) s vars strict
      = match take true [⟨.ok (Value.array rows)⟩] with
        | .ok v => .ok (DbResponse.other v, s, vars)
        | .error e => .fails e) := by
  refine ⟨rfl, rfl, rfl, rfl, ?_⟩
  cases h : take true [⟨.ok (Value.array rows)⟩] with
  | ok v =>
    simp [router, delete_statement, split_params, constDatastore, Param.new, h]
  | error e =>
    simp [router, delete_statement, split_params, constDatastore, Param.new, h]

/-- C2: for the single-record-id target of Create/Update/Merge/Patch/Select
(with or without a data payload) the dispatcher reduces the statement's
result array to a single value: no row matched yields the explicit
`Value::None` marker rather than an error, a nested one-element array is
unwrapped exactly one level, a plain last row is returned as is, and an
error is produced only when the statement itself errored. -/
theorem c2_single_record_collapse :
    ∀ (m : Method),
      m ∈ [Method.create, Method.update, Method.merge, Method.patch, Method.select] →
    ∀ (tb id : String) (data : Value) (ps : List Value),
      ps ∈ [[Value.thing tb id], [Value.thing tb id, data]] →
    ∀ (s : Session) (vars : Vars) (strict : Bool),
    (router (constDatastore [⟨.ok (Value.array [])⟩]) m (Param.new ps) s vars strict
        = .ok (DbResponse.other Value.none, s, vars))
  ∧ (∀ (init : List Value) (v : Value),
      router (constDatastore [⟨.ok (Value.array (init ++ [Value.array [v]]))⟩]) m
          (Param.new ps) s vars strict
        = .ok (DbResponse.other v, s, vars))
  ∧ (∀ (init : List Value) (o : List (String × Value)),
      router (constDatastore [⟨.ok (Value.array (init ++ [Value.object o]))⟩]) m
          (Param.new ps) s vars strict
        = .ok (DbResponse.other (Value.object o), s, vars))
  ∧ (∀ (e : String),
      router (constDatastore [⟨.error e⟩]) m (Param.new ps) s vars strict
        = .fails ⟨ErrorKind.query, ErrContext.msg e⟩) := by
  intro m hm tb id data ps hps s vars strict
  simp only [List.mem_cons, List.not_mem_nil, or_false] at hm hps
  rcases hm with rfl | rfl | rfl | rfl | rfl <;>
    rcases hps with rfl | rfl <;>
      refine ⟨?_, fun init v => ?_, fun init o => ?_, fun e => ?_⟩ <;>
        simp [router, create_statement, update_statement, merge_statement,
          patch_statement, select_statement, split_params, split_params.splitOne,
          isThing, constDatastore, Param.new, take_true_last_pair,
          take_true_last_object, take_true_no_rows, take_true_statement_error]

/-- Witness for C2: Create on a record id with a one-row response whose row
is a one-element nested array. -/
theorem c2_witness :
    router (constDatastore [⟨.ok (Value.array [Value.array [Value.strand "x"]])⟩])
        Method.create (Param.new [Value.thing "user" "john"])
        ⟨Option.none, Option.none⟩ [] false
      = .ok (DbResponse.other (Value.strand "x"), ⟨Option.none, Option.none⟩, []) := by
  have h := (c2_single_record_collapse Method.create (by simp) "user" "john" Value.none
      [Value.thing "user" "john"] (by simp) ⟨Option.none, Option.none⟩ [] false).2.1
      [] (Value.strand "x")
  simpa using h

lemma collectStatements_map_ok (stmtss : List (List Statement)) :
    collectStatements (stmtss.map Except.ok) = .ok stmtss.flatten := by
  induction stmtss with
  | nil => rfl
  | cons hd tl ih => simp [collectStatements, ih]

/-- C3: a query chain of fragments contributes its statements concatenated
in call order; dispatching the resulting N-statement query over an engine
that answers one response per statement yields a query response of exactly N
slots, the i-th slot derived from the i-th statement's response, each slot
independently a list of values (an array is unwrapped, none/null becomes the
empty list) or that statement's own error. -/
theorem c3_query_slots :
    ∀ (stmtss : List (List Statement)) (bindings : Vars) (s : Session)
      (vars : Vars) (strict : Bool) (rs : List Response),
      rs.length = stmtss.flatten.length →
      (collectStatements (stmtss.map Except.ok) = .ok stmtss.flatten)
    ∧ (router (constDatastore rs) Method.query
          ⟨some (⟨stmtss.flatten⟩, bindings), [], Option.none⟩ s vars strict
        = .ok (DbResponse.query (process rs), s, vars))
    ∧ (process rs).length = stmtss.flatten.length
    ∧ (∀ (i : Nat), (process rs).get? i = (rs.get? i).map processOne)
    ∧ (∀ (r : Response) (e : String), r.result = .error e →
        processOne r = .error ⟨ErrorKind.query, ErrContext.msg e⟩)
    ∧ (∀ (r : Response) (xs : List Value), r.result = .ok (Value.array xs) →
        processOne r = .ok xs) := by
  intro stmtss bindings s vars strict rs h
  refine ⟨collectStatements_map_ok stmtss, rfl, ?_, ?_, ?_, ?_⟩
  · simp [process, h]
  · intro i
    simp [process]
  · intro r e he
    simp [processOne, he]
  · intro r xs hx
    simp [processOne, hx]

/-- Witness for C3: a chain of two one-statement fragments against an engine
answering one value and one error. -/
theorem c3_witness :
    router (constDatastore [⟨.ok Value.none⟩, ⟨.error "boom"⟩]) Method.query
        ⟨some (⟨[Statement.raw "A", Statement.raw "B"]⟩, []), [], Option.none⟩
        ⟨Option.none, Option.none⟩ [] false
      = .ok (DbResponse.query
          [.ok [], .error ⟨ErrorKind.query, ErrContext.msg "boom"⟩],
          ⟨Option.none, Option.none⟩, []) := by
  have h := (c3_query_slots [[Statement.raw "A"], [Statement.raw "B"]] []
      ⟨Option.none, Option.none⟩ [] false
      [⟨.ok Value.none⟩, ⟨.error "boom"⟩] rfl).2.1
  simpa [process, processOne] using h

/-- C4: the embedded Query dispatch executes the statements with the union
of the session's persistent bindings and the call-local bindings, and for
every key present in both, the call-local value wins. -/
theorem c4_binding_union :
    ∀ (kvs : Datastore) (q : SqlQuery) (bindings : Vars) (s : Session)
      (vars : Vars) (strict : Bool),
    (router kvs Method.query ⟨some (q, bindings), [], Option.none⟩ s vars strict
        = match kvs.process q s (varsAppend vars bindings) strict with
          | .error e => .fails e
          | .ok responses => .ok (DbResponse.query (process responses), s, vars))
  ∧ (∀ (k : String), (bindings.map Prod.fst).Nodup →
      varsLookup (varsAppend vars bindings) k
        = match varsLookup bindings k with
          | some v => some v
          | Option.none => varsLookup vars k) := by
  intro kvs q bindings s vars strict
  exact ⟨rfl, fun k h => varsLookup_append vars bindings k h⟩

/-- Witness for C4: the call-local value for `"a"` overrides the session's. -/
theorem c4_witness :
    varsLookup (varsAppend [("a", Value.int 1), ("b", Value.int 3)]
        [("a", Value.int 2)]) "a"
      = some (Value.int 2) := by
  have h := (c4_binding_union (constDatastore []) ⟨[]⟩ [("a", Value.int 2)]
      ⟨Option.none, Option.none⟩ [("a", Value.int 1), ("b", Value.int 3)] false).2
      "a" (by simp)
  rw [h]
  simp [varsLookup]

/-- C5: `get` on a query response with an out-of-range statement index, or an
out-of-range item index or range within an in-range statement, yields the
requested type's absent/default value (`Option.none`, the empty list) rather
than an error; but when the addressed statement itself produced an engine
error, that error is returned on access to that statement's items. -/
theorem c5_get_absent_or_error :
    ∀ (resp : QueryResponse) (qi i lo hi : Nat) (vs : List Value) (e : Err),
    (resp.length ≤ qi → queryResponseGetIdx resp qi i = .ok Option.none)
  ∧ (resp.length ≤ qi → queryResponseGetRange resp qi lo hi = .ok [])
  ∧ (vs.length ≤ i → queryResultGetIdx (.ok vs) i = .ok Option.none)
  ∧ (vs.length < hi → queryResultGetRange (.ok vs) lo hi = .ok [])
  ∧ (queryResultGetIdx (.error e) i = .error e)
  ∧ (queryResult? resp qi = some (.error e) →
      queryResponseGetIdx resp qi i = .error e
        ∧ queryResponseGetRange resp qi lo hi = .error e) := by
  intro resp qi i lo hi vs e
  refine ⟨fun h => ?_, fun h => ?_, fun h => ?_, fun h => ?_, rfl, fun h => ?_⟩
  · simp [queryResponseGetIdx, queryResult?, List.getElem?_eq_none h]
  · simp [queryResponseGetRange, queryResult?, List.getElem?_eq_none h]
  · simp [queryResultGetIdx, List.getElem?_eq_none h]
  · have hc : ¬ (lo ≤ hi ∧ hi ≤ vs.length) := by omega
    simp [queryResultGetRange, listSlice?, hc]
  · exact ⟨by simp [queryResponseGetIdx, h, queryResultGetIdx],
      by simp [queryResponseGetRange, h, queryResultGetRange]⟩

/-- Witness for C5: a one-statement response probed at statement index 5,
an in-range ok statement probed past its two items, and an error statement
surfacing its error. -/
theorem c5_witness :
    queryResponseGetIdx [(.ok [] : QueryResult)] 5 0 = .ok Option.none
  ∧ queryResultGetIdx (.ok [Value.int 1, Value.int 2]) 2 = .ok Option.none
  ∧ queryResultGetRange (.ok [Value.int 1, Value.int 2]) 0 3 = .ok []
  ∧ queryResponseGetIdx
      [(.error ⟨ErrorKind.query, ErrContext.msg "boom"⟩ : QueryResult)] 0 0
      = .error ⟨ErrorKind.query, ErrContext.msg "boom"⟩ := by
  have h1 := (c5_get_absent_or_error [(.ok [] : QueryResult)] 5 0 0 0 [] ⟨ErrorKind.query, ErrContext.msg "boom"⟩).1 (by simp)
  have h2 := (c5_get_absent_or_error [] 0 2 0 0 [Value.int 1, Value.int 2] ⟨ErrorKind.query, ErrContext.msg "boom"⟩).2.2.1 (by simp)
  have h3 := (c5_get_absent_or_error [] 0 0 0 3 [Value.int 1, Value.int 2] ⟨ErrorKind.query, ErrContext.msg "boom"⟩).2.2.2.1 (by simp)
  have h4 := ((c5_get_absent_or_error
      [(.error ⟨ErrorKind.query, ErrContext.msg "boom"⟩ : QueryResult)] 0 0 0 0 []
      ⟨ErrorKind.query, ErrContext.msg "boom"⟩).2.2.2.2.2 rfl).1
  exact ⟨h1, h2, h3, h4⟩

/-- C6: within one chain, binding the same key twice keeps the last value;
binding a literal two-element `[string, value]` array is exactly binding that
key and value individually (even when the value is itself a 2-tuple), and any
other non-object binding — a pair whose first element is not a string, a
three-element array, a one-element array — is rejected as invalid bindings
rather than treated as the shorthand. -/
theorem c6_bind_shorthand :
    ∀ (cur : Vars) (st : Except Err Vars) (k : String) (v v1 v2 w x y : Value)
      (b : Bool),
    (bind (bind (.ok cur) (Value.object [(k, v1)])) (Value.object [(k, v2)])
        = .ok (varsInsert (varsInsert cur k v1) k v2))
  ∧ (varsLookup (varsInsert (varsInsert cur k v1) k v2) k = some v2)
  ∧ (bind st (Value.array [Value.strand k, v]) = bind st (Value.object [(k, v)]))
  ∧ (bind (.ok cur) (Value.array [Value.strand k, Value.array [x, y]])
        = .ok (varsInsert cur k (Value.array [x, y])))
  ∧ (bind (.ok cur) (Value.array [Value.bool b, v])
        = .error ⟨ErrorKind.invalidBindings,
            ErrContext.val (Value.array [Value.bool b, v])⟩)
  ∧ (bind (.ok cur) (Value.array [Value.strand k, v, w])
        = .error ⟨ErrorKind.invalidBindings,
            ErrContext.val (Value.array [Value.strand k, v, w])⟩)
  ∧ (bind (.ok cur) (Value.array [Value.strand k])
        = .error ⟨ErrorKind.invalidBindings,
            ErrContext.val (Value.array [Value.strand k])⟩) := by
  intro cur st k v v1 v2 w x y b
  refine ⟨rfl, ?_, ?_, rfl, rfl, rfl, rfl⟩
  · simp [varsLookup_insert]
  · cases st with
    | error e => rfl
    | ok m => rfl

end Surreal
